import Mathlib

set_option maxRecDepth 100000

/-!
Verification development for the `asdf` WebFinger server.

The Go sources are shallowly embedded: each Go function that a property
touches is translated into an executable Lean definition over explicit
state.  Wall-clock time is an `Int` of nanoseconds, database and Redis
backends are explicit values threaded through the functions, and the
possibility of a backend call failing is an explicit `Bool` parameter
(`true` = the I/O succeeds), mirroring the `if err != nil` branches of the
source.  Cryptographic primitives (HMAC-SHA256, SHA-256) are modelled by
concrete executable hash functions: the properties proved here depend only
on the control flow around them, never on collision resistance.
-/

namespace Asdf

/-- Time instants, in nanoseconds (model of Go `time.Time`). -/
abbrev Time := Int

/-- Durations, in nanoseconds (model of Go `time.Duration`). -/
abbrev Duration := Int

/-- One second, as in Go `time.Second`. -/
def second : Duration := 1000000000

/-- One minute, as in Go `time.Minute`. -/
def minute : Duration := 60 * second

/-- One hour, as in Go `time.Hour`. -/
def hour : Duration := 60 * minute

/-- Model of a Go `(value, error)` pair: `val = none` is the zero value
(`nil` pointer or empty string), `err = none` is a `nil` error. -/
structure GoPair (α : Type) where
  val : Option α
  err : Option String
deriving Repr, DecidableEq

/-- Claims carried by a token, from `internal/auth/auth.go` (`Claims`,
embedding the used `jwt.RegisteredClaims` fields). -/
structure Claims where
  userID : Int
  username : String
  email : String
  isAdmin : Bool
  expiresAt : Time
  issuedAt : Time
  notBefore : Time
  issuer : String
  subject : String
  jwtID : String
deriving Repr, DecidableEq

/-- Fold hash over characters, the building block of the modelled
cryptographic functions. -/
def foldHashChars : Int → List Char → Int
  | acc, [] => acc
  | acc, c :: cs => foldHashChars (acc * 131 + (c.toNat : Int)) cs

/-- Simple fold hash over a string. -/
def foldHash (acc : Int) (s : String) : Int :=
  foldHashChars acc s.data

/-- Serialisation of a claim set into a string (model of the JSON claim
segment of the JWT). -/
def encodeClaims (c : Claims) : String :=
  toString c.userID ++ "|" ++ c.username ++ "|" ++ c.email ++ "|" ++
    (if c.isAdmin then "1" else "0") ++ "|" ++ toString c.expiresAt ++ "|" ++
    toString c.issuedAt ++ "|" ++ toString c.notBefore ++ "|" ++ c.issuer ++
    "|" ++ c.subject ++ "|" ++ c.jwtID

/-- Model of HMAC-SHA256 over the claim segment: a concrete keyed hash. -/
def hmacSHA256 (secret msg : String) : Int :=
  foldHash (foldHash 7 secret) msg

/-- A signed token: claims plus signature (model of the three-segment JWT
string produced by `jwt.NewWithClaims(...).SignedString`). -/
structure Token where
  claims : Claims
  sig : Int
deriving Repr, DecidableEq

/-- Signing a claim set, from `GenerateToken`: `jwt.NewWithClaims` followed
by `SignedString` (HS256 signing of serialisable claims cannot fail). -/
def signedString (secret : String) (c : Claims) : Token :=
  ⟨c, hmacSHA256 secret (encodeClaims c)⟩

/-- Model of `jwt.ParseWithClaims` with the HMAC key function of
`ValidateToken`: the signature is checked against the secret and the
registered `exp`/`nbf` bounds are validated against the current time
(jwt/v5 default validation). -/
def parseWithClaims (secret : String) (now : Time) (t : Token) : Except String Claims :=
  if t.sig != hmacSHA256 secret (encodeClaims t.claims) then
    .error "signature is invalid"
  else if t.claims.expiresAt ≤ now then
    .error "token is expired"
  else if now < t.claims.notBefore then
    .error "token is not valid yet"
  else
    .ok t.claims

/-- Model of `AuthService.hashToken`: SHA-256 of the full signed token
string, hex encoded.  Modelled as a concrete hash of the token contents. -/
def hashToken (t : Token) : Int :=
  foldHash (foldHash 13 (encodeClaims t.claims)) (toString t.sig)

/-- Session row, from `internal/auth/auth.go` (`Session`) and the
`sessions` table. -/
structure Session where
  id : String
  userID : Int
  tokenHash : Int
  expiresAt : Time
  createdAt : Time
  lastUsedAt : Time
  ipAddress : String
  userAgent : String
deriving Repr, DecidableEq

/-- User record, from `internal/auth/auth.go` (`User`), restricted to the
fields the embedded functions read. -/
structure User where
  id : Int
  username : String
  email : String
  passwordHash : String
  isAdmin : Bool
  isActive : Bool
deriving Repr, DecidableEq

/-- Authentication service configuration, from `AuthService`. -/
structure AuthService where
  jwtSecret : String
  tokenExpiry : Duration
deriving Repr, DecidableEq

/-- Model of `PostgresSessionStore.CreateSession`: one `INSERT`; `dbOk`
models whether the database call itself succeeds. -/
def createSession (dbOk : Bool) (rows : List Session) (s : Session) :
    Option String × List Session :=
  if dbOk then (none, rows ++ [s])
  else (some "failed to create session", rows)

/-- Model of `PostgresSessionStore.GetSession`: `SELECT ... WHERE
token_hash = $1 AND expires_at > NOW()` (the liveness filter is applied in
the query), returning "session not found" on no row, then a best-effort
`UPDATE ... SET last_used_at = NOW()` whose error is discarded. -/
def getSession (dbOk : Bool) (rows : List Session) (now : Time) (tokenHash : Int) :
    GoPair Session × List Session :=
  if !dbOk then (⟨none, some "failed to get session"⟩, rows)
  else
    match rows.find? (fun s => s.tokenHash == tokenHash && decide (now < s.expiresAt)) with
    | none => (⟨none, some "session not found"⟩, rows)
    | some s =>
        (⟨some s, none⟩,
         rows.map (fun r => if r.tokenHash == tokenHash then { r with lastUsedAt := now } else r))

/-- Model of `PostgresSessionStore.DeleteSession`: `DELETE ... WHERE
token_hash = $1`, returning the error "session not found" when
`RowsAffected() == 0`. -/
def deleteSession (dbOk : Bool) (rows : List Session) (tokenHash : Int) :
    Option String × List Session :=
  if !dbOk then (some "failed to delete session", rows)
  else
    let remaining := rows.filter (fun s => s.tokenHash != tokenHash)
    if remaining.length == rows.length then (some "session not found", rows)
    else (none, remaining)

/-- Claims built by `GenerateToken` for a user at an instant (the `claims`
local of the source). -/
def genClaims (a : AuthService) (now : Time) (jti : String) (user : User) : Claims :=
  { userID := user.id, username := user.username, email := user.email,
    isAdmin := user.isAdmin, expiresAt := now + a.tokenExpiry, issuedAt := now,
    notBefore := now, issuer := "asdf-webfinger",
    subject := "user:" ++ toString user.id, jwtID := jti }

/-- Token signed by `GenerateToken` (the `tokenString` local of the
source). -/
def genToken (a : AuthService) (now : Time) (jti : String) (user : User) : Token :=
  signedString a.jwtSecret (genClaims a now jti user)

/-- Session row built by `GenerateToken` (the `session` local of the
source). -/
def genSession (a : AuthService) (now : Time) (jti : String) (user : User)
    (ip ua : String) : Session :=
  { id := jti, userID := user.id, tokenHash := hashToken (genToken a now jti user),
    expiresAt := now + a.tokenExpiry, createdAt := now, lastUsedAt := now,
    ipAddress := ip, userAgent := ua }

/-- Model of `AuthService.GenerateToken`: build claims from the user, sign,
hash the token, and persist one new session row; on persistence failure the
signed credential is dropped and `("", err)` is returned. -/
def generateToken (a : AuthService) (createOk : Bool) (rows : List Session)
    (now : Time) (jti : String) (user : User) (ip ua : String) :
    GoPair Token × List Session :=
  match createSession createOk rows (genSession a now jti user ip ua) with
  | (some e, rows2) => (⟨none, some ("failed to create session: " ++ e)⟩, rows2)
  | (none, rows2) => (⟨some (genToken a now jti user), none⟩, rows2)

/-- Model of `AuthService.ValidateToken`: parse and verify the JWT, then
look the session up by token hash and reject when it is expired. -/
def validateToken (a : AuthService) (dbOk : Bool) (rows : List Session)
    (now : Time) (t : Token) : GoPair Claims × List Session :=
  match parseWithClaims a.jwtSecret now t with
  | .error e => (⟨none, some ("failed to parse token: " ++ e)⟩, rows)
  | .ok claims =>
      let r := getSession dbOk rows now (hashToken t)
      match r.1.val with
      | none => (⟨none, some ("session not found: " ++ r.1.err.getD "")⟩, r.2)
      | some s =>
          if s.expiresAt < now then (⟨none, some "session expired"⟩, r.2)
          else (⟨some claims, none⟩, r.2)

/-- Model of `AuthService.RevokeToken`: delete the session row keyed by the
token hash. -/
def revokeToken (dbOk : Bool) (rows : List Session) (t : Token) :
    Option String × List Session :=
  deleteSession dbOk rows (hashToken t)

/-- Model of `AuthService.RefreshToken`: validate the old token, rebuild the
user from its claims, best-effort revoke the old session (the error is
deliberately discarded), and generate a new token. -/
def refreshToken (a : AuthService) (getOk delOk createOk : Bool)
    (rows : List Session) (now : Time) (jti : String) (old : Token)
    (ip ua : String) : GoPair Token × List Session :=
  let v := validateToken a getOk rows now old
  match v.1.val with
  | none => (⟨none, some ("invalid token for refresh: " ++ v.1.err.getD "")⟩, v.2)
  | some claims =>
      let user : User :=
        { id := claims.userID, username := claims.username,
          email := claims.email, passwordHash := "",
          isAdmin := claims.isAdmin, isActive := false }
      let afterRevoke := (deleteSession delOk v.2 (hashToken old)).2
      generateToken a createOk afterRevoke now jti user ip ua

/-- Link of a JRD, from `internal/types/jrd.go`. -/
structure Link where
  rel : String
  type : String
  href : String
deriving Repr, DecidableEq

/-- JSON Resource Descriptor, from `internal/types/jrd.go`.  The JSON
`properties` object is modelled as an association list of string values. -/
structure JRD where
  subject : String
  aliases : List String
  properties : List (String × String)
  links : List Link
deriving Repr, DecidableEq

/-- A value stored at a Redis string key: either a well-formed serialised
JRD (what `json.Marshal` produced) or corrupt bytes that `json.Unmarshal`
rejects. -/
inductive Payload where
  | wellFormed (j : JRD) : Payload
  | corrupt (raw : String) : Payload
deriving Repr, DecidableEq

/-- Model of `json.Unmarshal` into a `types.JRD`. -/
def unmarshalJRD : Payload → Option JRD
  | .wellFormed j => some j
  | .corrupt _ => none

/-- State of the Redis backend used by `RedisCache`: the string keyspace
(WebFinger entries, with the TTL given at `SET`), the list keyspace (search
entries, with absolute expiry so that `TTL` and expiration are definable),
and the two stats counters. -/
structure RedisState where
  kv : List (String × Payload × Duration)
  lists : List (String × List String × Time)
  hits : Nat
  misses : Nat
deriving Repr, DecidableEq

/-- Key namespace of `RedisCache` (`c.prefix`). -/
def cacheNS : String := "asdf:webfinger:"

/-- Model of `RedisCache.webfingerKey`. -/
def webfingerKey (subject : String) : String :=
  cacheNS ++ "webfinger:" ++ subject

/-- Model of `RedisCache.searchKey`. -/
def searchKey (query : String) : String :=
  cacheNS ++ "search:" ++ query

/-- Lookup in an association list keyed by strings (Redis `GET`). -/
def kvGet (kv : List (String × Payload × Duration)) (k : String) :
    Option (Payload × Duration) :=
  (kv.find? (fun e => e.1 == k)).map (·.2)

/-- Overwrite in an association list (Redis `SET`). -/
def kvSet (kv : List (String × Payload × Duration)) (k : String)
    (v : Payload × Duration) : List (String × Payload × Duration) :=
  (k, v) :: kv.filter (fun e => e.1 != k)

/-- Removal from an association list (Redis `DEL`). -/
def kvDel (kv : List (String × Payload × Duration)) (k : String) :
    List (String × Payload × Duration) :=
  kv.filter (fun e => e.1 != k)

/-- Lookup in the list keyspace. -/
def listsGet (ls : List (String × List String × Time)) (k : String) :
    Option (List String × Time) :=
  (ls.find? (fun e => e.1 == k)).map (·.2)

/-- Model of `RedisCache.GetWebFingerRecord`: a missing key (`redis.Nil`)
is a `(nil, nil)` miss; a present payload that fails to unmarshal is
deleted and an unmarshal error is returned; a well-formed payload is a hit
(the hit counter is incremented). -/
def getWebFingerRecord (redisOk : Bool) (st : RedisState) (subject : String) :
    GoPair JRD × RedisState :=
  if !redisOk then (⟨none, some "failed to get WebFinger record from cache"⟩, st)
  else
    let key := webfingerKey subject
    match kvGet st.kv key with
    | none => (⟨none, none⟩, st)
    | some (p, _) =>
        match unmarshalJRD p with
        | none =>
            (⟨none, some "failed to unmarshal cached WebFinger record"⟩,
             { st with kv := kvDel st.kv key })
        | some jrd => (⟨some jrd, none⟩, { st with hits := st.hits + 1 })

/-- Model of `RedisCache.SetWebFingerRecord`: marshal (total here) and
`SET` with the given expiry. -/
def setWebFingerRecord (redisOk : Bool) (st : RedisState) (subject : String)
    (jrd : JRD) (expiry : Duration) : Option String × RedisState :=
  if !redisOk then (some "failed to set WebFinger record in cache", st)
  else
    (none, { st with kv := kvSet st.kv (webfingerKey subject) (.wellFormed jrd, expiry) })

/-- Model of `RedisCache.RecordMiss`: increments the miss counter. -/
def recordMiss (st : RedisState) : RedisState :=
  { st with misses := st.misses + 1 }

/-- Model of `RedisCache.GetSearchResults`: `LRANGE key 0 -1` (an absent or
expired key yields the empty list), with an empty result treated as a
`(nil, nil)` miss. -/
def getSearchResults (redisOk : Bool) (st : RedisState) (now : Time)
    (query : String) : GoPair (List String) × RedisState :=
  if !redisOk then (⟨none, some "failed to get search results from cache"⟩, st)
  else
    let items :=
      match listsGet st.lists (searchKey query) with
      | some (xs, expAt) => if now < expAt then xs else []
      | none => []
    if items.isEmpty then (⟨none, none⟩, st)
    else (⟨some items, none⟩, { st with hits := st.hits + 1 })

/-- Model of `RedisCache.SetSearchResults`: pipeline of `DEL`, `LPUSH` of
either the results or the `__EMPTY__` sentinel, and `EXPIRE` (`LPUSH` of
the argument list reverses its order). -/
def setSearchResults (redisOk : Bool) (st : RedisState) (now : Time)
    (query : String) (results : List String) (expiry : Duration) :
    Option String × RedisState :=
  if !redisOk then (some "failed to set search results in cache", st)
  else
    let items := if results.isEmpty then ["__EMPTY__"] else results.reverse
    let rest := st.lists.filter (fun e => e.1 != searchKey query)
    (none, { st with lists := (searchKey query, items, now + expiry) :: rest })

/-- Model of `RedisCache.Cleanup`: every search key whose list is exactly
the `__EMPTY__` sentinel and whose remaining TTL is strictly between 0 and
23 hours is deleted. -/
def cleanup (st : RedisState) (now : Time) : RedisState :=
  { st with lists := st.lists.filter (fun e =>
      !(e.2.1 == ["__EMPTY__"] && decide (0 < e.2.2 - now) &&
        decide (e.2.2 - now < 23 * hour))) }

/-- Model of `resource.IsValidResource`: the key must contain an `@`
(`strings.Contains` with the one-character needle `"@"`). -/
def isValidResource (resource : String) : Bool :=
  resource.data.contains '@'

/-- Model of `strings.TrimPrefix(resource, "acct:")`. -/
def trimAcct (resource : String) : String :=
  if resource.data.take 5 == "acct:".data then resource.drop 5 else resource

/-- Model of `resource.GetSubject`: strip the `acct:` scheme and apply the
shape check. -/
def getSubject (resource : String) : Except String String :=
  let acct := trimAcct resource
  if !isValidResource acct then .error "asdf: invalid resource parameter"
  else .ok acct

/-- Model of `resource.ParseResource` over the `resource` query parameter
(`""` both for an absent and for an empty parameter, as with
`URL.Query().Get`). -/
def parseResource (resource : String) : Except String String :=
  if resource == "" then .error "asdf: missing resource parameter"
  else getSubject resource

/-- Model of `store.MockStore.LookupBySubject`: a missing subject is
signalled by `(nil, nil)`. -/
def mockLookupBySubject (records : List (String × JRD)) (subject : String) :
    GoPair JRD :=
  match records.find? (fun e => e.1 == subject) with
  | some e => ⟨some e.2, none⟩
  | none => ⟨none, none⟩

/-- Model of `store.PostgresStore.LookupBySubject`: a missing subject makes
`row.Scan` fail, so it is signalled by a non-nil error. -/
def postgresLookupBySubject (dbOk : Bool) (rows : List JRD) (subject : String) :
    GoPair JRD :=
  if !dbOk then ⟨none, some "query failed"⟩
  else
    match rows.find? (fun j => j.subject == subject) with
    | some j => ⟨some j, none⟩
    | none => ⟨none, some "no rows in result set"⟩

/-- Observable outcome of `HTMLHandler.HandleWebFinger`: status code, the
`Content-Type` and `X-Cache` headers, the JRD body of a `200`, and the
`http.Error` text otherwise. -/
structure Response where
  status : Nat
  contentType : Option String
  xCache : Option String
  body : Option JRD
  errText : Option String
deriving Repr, DecidableEq

/-- Rebuild of the response JRD from the store record, from
`HandleWebFinger` (`resp = &types.JRD{Subject: user.Subject, ...}`): this
is where a `nil` record would be dereferenced. -/
def jrdOf (user : JRD) : JRD :=
  { subject := user.subject, aliases := user.aliases,
    properties := user.properties, links := user.links }

/-- Database path of `HandleWebFinger`: `LookupBySubject`, `404` on a
lookup error, otherwise build the response from the record (a `nil` record
with a `nil` error makes the field accesses panic, modelled by `none`),
best-effort cache write with a 5-minute expiry, and a `200` marked `MISS`. -/
def handleWebFingerDB (redisOk : Bool) (data : String → GoPair JRD)
    (cache : Option RedisState) (resource : String) :
    Option (Response × Option RedisState) :=
  let u := data resource
  match u.err with
  | some _ =>
      some ({ status := 404, contentType := none, xCache := none,
              body := none, errText := some "not found" }, cache)
  | none =>
      match u.val with
      | none => none
      | some user =>
          let resp := jrdOf user
          let cache2 :=
            match cache with
            | some st => some (setWebFingerRecord redisOk st resource resp (5 * minute)).2
            | none => none
          some ({ status := 200, contentType := some "application/jrd+json",
                  xCache := some "MISS", body := some resp, errText := none }, cache2)

/-- Model of `HTMLHandler.HandleWebFinger`: `400` on an absent (empty)
`resource` parameter; otherwise try the cache when one is configured and
return a `200` marked `HIT` on a cache hit; on anything else record a miss
and fall through to the database path. -/
def handleWebFinger (redisOk : Bool) (data : String → GoPair JRD)
    (cache : Option RedisState) (resource : String) :
    Option (Response × Option RedisState) :=
  if resource == "" then
    some ({ status := 400, contentType := none, xCache := none,
            body := none, errText := some "missing resource param" }, cache)
  else
    match cache with
    | some st =>
        let g := getWebFingerRecord redisOk st resource
        match g.1.err, g.1.val with
        | none, some resp =>
            some ({ status := 200, contentType := some "application/jrd+json",
                    xCache := some "HIT", body := some resp, errText := none },
                  some g.2)
        | _, _ => handleWebFingerDB redisOk data (some (recordMiss g.2)) resource
    | none => handleWebFingerDB redisOk data none resource

/-- Model of `bcrypt.GenerateFromPassword`: a concrete injective encoding
standing in for the password hash. -/
def bcryptHash (password : String) : String :=
  "bcrypt$" ++ password

/-- Model of `AuthService.VerifyPassword` (`bcrypt.CompareHashAndPassword`
succeeds exactly on the hash of the password). -/
def verifyPassword (password hash : String) : Bool :=
  hash == bcryptHash password

/-- Model of `PostgresUserStore.GetUserByUsername`: a missing user yields
`(nil, "user not found")`. -/
def getUserByUsername (dbOk : Bool) (users : List User) (username : String) :
    GoPair User :=
  if !dbOk then ⟨none, some "failed to get user"⟩
  else
    match users.find? (fun u => u.username == username) with
    | some u => ⟨some u, none⟩
    | none => ⟨none, some "user not found"⟩

/-- Model of `PostgresUserStore.GetUserByEmail`. -/
def getUserByEmail (dbOk : Bool) (users : List User) (email : String) :
    GoPair User :=
  if !dbOk then ⟨none, some "failed to get user"⟩
  else
    match users.find? (fun u => u.email == email) with
    | some u => ⟨some u, none⟩
    | none => ⟨none, some "user not found"⟩

/-- Parsed body of `POST /api/auth/login` (`LoginRequest`). -/
structure LoginRequest where
  username : String
  password : String
deriving Repr, DecidableEq

/-- JSON error body written by `AuthHandler.writeError`
(`ErrorResponse`). -/
structure ErrorResponse where
  error : String
  message : String
deriving Repr, DecidableEq

/-- Observable outcome of `AuthHandler.HandleLogin`: status code, the
error body on failure, and the token and user of a success body. -/
structure HTTPReply where
  status : Nat
  errBody : Option ErrorResponse
  token : Option Token
  user : Option User
deriving Repr, DecidableEq

/-- Model of `AuthHandler.HandleLogin` after JSON decoding: empty fields
give a `400`; the user is fetched by email when the login name contains an
`@`, else by username; a lookup error or missing user gives `401` "Invalid
credentials"; an inactive user gives `403`; a wrong password gives the same
`401` "Invalid credentials"; otherwise a token is generated (`500` when
that fails) and the user is returned with the password hash blanked. -/
def handleLogin (dbOk createOk : Bool) (a : AuthService) (users : List User)
    (sessions : List Session) (now : Time) (jti : String) (ip ua : String)
    (req : LoginRequest) : HTTPReply × List Session :=
  if req.username == "" || req.password == "" then
    (⟨400, some ⟨"Username and password required", ""⟩, none, none⟩, sessions)
  else
    let lookup :=
      if req.username.data.contains '@' then getUserByEmail dbOk users req.username
      else getUserByUsername dbOk users req.username
    if lookup.err.isSome || lookup.val.isNone then
      (⟨401, some ⟨"Invalid credentials", ""⟩, none, none⟩, sessions)
    else
      match lookup.val with
      | none => (⟨401, some ⟨"Invalid credentials", ""⟩, none, none⟩, sessions)
      | some user =>
          if !user.isActive then
            (⟨403, some ⟨"Account is disabled", ""⟩, none, none⟩, sessions)
          else if !verifyPassword req.password user.passwordHash then
            (⟨401, some ⟨"Invalid credentials", ""⟩, none, none⟩, sessions)
          else
            let g := generateToken a createOk sessions now jti user ip ua
            match g.1.val with
            | none =>
                (⟨500, some ⟨"Failed to generate token", g.1.err.getD ""⟩, none, none⟩, g.2)
            | some tok =>
                (⟨200, none, some tok, some { user with passwordHash := "" }⟩, g.2)

/-! Concrete fixtures used by counterexamples and witnesses. -/

/-- A concrete service configuration. -/
def svc0 : AuthService := { jwtSecret := "s3cret", tokenExpiry := hour }

/-- A concrete instant. -/
def now0 : Time := 1000000000000

/-- A concrete active user. -/
def user0 : User :=
  { id := 1, username := "alice", email := "alice@example.com",
    passwordHash := bcryptHash "password123", isAdmin := false, isActive := true }

/-- The claim set `GenerateToken` builds for `user0` at `now0`. -/
def claims0 : Claims :=
  { userID := 1, username := "alice", email := "alice@example.com",
    isAdmin := false, expiresAt := now0 + hour, issuedAt := now0,
    notBefore := now0, issuer := "asdf-webfinger", subject := "user:1",
    jwtID := "jti-1" }

/-- The token signed from `claims0`. -/
def tok0 : Token := signedString svc0.jwtSecret claims0

/-- The session row `GenerateToken` persists for `tok0`. -/
def sess0 : Session :=
  { id := "jti-1", userID := 1, tokenHash := hashToken tok0,
    expiresAt := now0 + hour, createdAt := now0, lastUsedAt := now0,
    ipAddress := "1.2.3.4", userAgent := "ua" }

/-- A session ledger holding exactly the live row for `tok0`. -/
def rows0 : List Session := [sess0]

/-- A successful `parseWithClaims` implies the signature matches the
secret. -/
theorem parse_ok_sig {secret : String} {now : Time} {t : Token} {c : Claims}
    (h : parseWithClaims secret now t = .ok c) :
    t.sig = hmacSHA256 secret (encodeClaims t.claims) := by
  by_cases hs : t.sig = hmacSHA256 secret (encodeClaims t.claims)
  · exact hs
  · simp [parseWithClaims, hs] at h

/-- C1: `ValidateToken` succeeds only if the JWT signature verifies against
the service secret and a session row keyed by the hash of the token exists
with `expires_at` in the future; a token whose hash matches no live row
(none at all, or only expired ones) is rejected with an error, with no
sweep involved. -/
theorem validateToken_requires_live_session (a : AuthService) (dbOk : Bool)
    (rows : List Session) (now : Time) (t : Token) :
    ((validateToken a dbOk rows now t).1.err = none →
      t.sig = hmacSHA256 a.jwtSecret (encodeClaims t.claims) ∧
      ∃ s ∈ rows, s.tokenHash = hashToken t ∧ now < s.expiresAt) ∧
    ((∀ s ∈ rows, s.tokenHash = hashToken t → s.expiresAt ≤ now) →
      (validateToken a dbOk rows now t).1.val = none ∧
      (validateToken a dbOk rows now t).1.err ≠ none) := by
  cases hp : parseWithClaims a.jwtSecret now t with
  | error e =>
      constructor
      · intro hsucc
        simp [validateToken, hp] at hsucc
      · intro _
        simp [validateToken, hp]
  | ok c =>
      cases hdb : dbOk with
      | false =>
          constructor
          · intro hsucc
            simp [validateToken, hp, getSession] at hsucc
          · intro _
            simp [validateToken, hp, getSession]
      | true =>
          cases hf : rows.find?
              (fun s => s.tokenHash == hashToken t && decide (now < s.expiresAt)) with
          | none =>
              constructor
              · intro hsucc
                simp [validateToken, hp, getSession, hf] at hsucc
              · intro _
                simp [validateToken, hp, getSession, hf]
          | some s =>
              have hmem : s ∈ rows := List.mem_of_find?_eq_some hf
              have hpred := List.find?_some hf
              simp only [Bool.and_eq_true, beq_iff_eq, decide_eq_true_eq] at hpred
              obtain ⟨hhash, hlive⟩ := hpred
              have hnotexp : ¬ s.expiresAt < now := not_lt_of_gt hlive
              constructor
              · intro _
                exact ⟨parse_ok_sig hp, s, hmem, hhash, hlive⟩
              · intro hall
                exact absurd (hall s hmem hhash) (not_le_of_gt hlive)

/-- Witness for C1: a concretely issued token validates against its live
session row, and the same ledger rejects it once the row has expired. -/
theorem validateToken_requires_live_session_witness :
    (tok0.sig = hmacSHA256 svc0.jwtSecret (encodeClaims tok0.claims) ∧
      ∃ s ∈ rows0, s.tokenHash = hashToken tok0 ∧ now0 < s.expiresAt) ∧
    ((validateToken svc0 true rows0 (now0 + 2 * hour) tok0).1.val = none ∧
      (validateToken svc0 true rows0 (now0 + 2 * hour) tok0).1.err ≠ none) :=
  ⟨(validateToken_requires_live_session svc0 true rows0 now0 tok0).1 (by decide),
   (validateToken_requires_live_session svc0 true rows0 (now0 + 2 * hour) tok0).2
     (by decide)⟩

/-- C5: `GenerateToken` fails closed: when persisting the session row
fails, the credential component of the result is the zero value and an
error is returned, with the ledger unchanged; conversely a returned
credential always has a session row keyed by its hash in the resulting
ledger. -/
theorem generateToken_fails_closed (a : AuthService) (createOk : Bool)
    (rows : List Session) (now : Time) (jti : String) (u : User) (ip ua : String) :
    (createOk = false →
      (generateToken a createOk rows now jti u ip ua).1.val = none ∧
      (generateToken a createOk rows now jti u ip ua).1.err ≠ none ∧
      (generateToken a createOk rows now jti u ip ua).2 = rows) ∧
    (∀ tok, (generateToken a createOk rows now jti u ip ua).1.val = some tok →
      ∃ s ∈ (generateToken a createOk rows now jti u ip ua).2,
        s.tokenHash = hashToken tok) := by
  cases createOk with
  | false =>
      constructor
      · intro _
        simp [generateToken, createSession]
      · intro tok h
        simp [generateToken, createSession] at h
  | true =>
      have hgen : generateToken a true rows now jti u ip ua
          = (⟨some (genToken a now jti u), none⟩,
             rows ++ [genSession a now jti u ip ua]) := rfl
      have hsess : genSession a now jti u ip ua
          = { id := jti, userID := u.id,
              tokenHash := hashToken (genToken a now jti u),
              expiresAt := now + a.tokenExpiry, createdAt := now,
              lastUsedAt := now, ipAddress := ip, userAgent := ua } := rfl
      constructor
      · intro h
        cases h
      · intro tok h
        rw [hgen] at h
        have e : genToken a now jti u = tok := Option.some.inj h
        refine ⟨genSession a now jti u ip ua, ?_, ?_⟩
        · rw [hgen]
          exact List.mem_append_right _ (List.mem_singleton.mpr rfl)
        · rw [← e, hsess]

/-- Witness for C5: a failed persistence drops the concrete credential, and
a successful one stores a row keyed by the hash of `tok0`. -/
theorem generateToken_fails_closed_witness :
    ((generateToken svc0 false [] now0 "jti-1" user0 "1.2.3.4" "ua").1.val = none ∧
      (generateToken svc0 false [] now0 "jti-1" user0 "1.2.3.4" "ua").1.err ≠ none ∧
      (generateToken svc0 false [] now0 "jti-1" user0 "1.2.3.4" "ua").2 = []) ∧
    (∃ s ∈ (generateToken svc0 true [] now0 "jti-1" user0 "1.2.3.4" "ua").2,
      s.tokenHash = hashToken tok0) :=
  ⟨(generateToken_fails_closed svc0 false [] now0 "jti-1" user0 "1.2.3.4" "ua").1 rfl,
   (generateToken_fails_closed svc0 true [] now0 "jti-1" user0 "1.2.3.4" "ua").2 tok0
     (by decide)⟩

/-- Counterexample for C3: revoking a credential with no matching session
row is an error ("session not found" from `RowsAffected() == 0`), not the
non-error outcome the claim states. -/
theorem revokeToken_unknown_is_error_cex :
    (revokeToken true [] tok0).1 = some "session not found" := rfl

/-- C3 (amended): revoking a credential with no matching session row
returns a "session not found" error and leaves the ledger unchanged;
revoking twice in a row ends in the same final ledger as revoking once, but
the second revocation reports an error instead of success. -/
theorem revokeToken_amended (rows : List Session) (t : Token) :
    ((∀ s ∈ rows, s.tokenHash ≠ hashToken t) →
      revokeToken true rows t = (some "session not found", rows)) ∧
    ((revokeToken true (revokeToken true rows t).2 t).2 = (revokeToken true rows t).2 ∧
      (revokeToken true (revokeToken true rows t).2 t).1 ≠ none) := by
  constructor
  · intro h
    have hself : rows.filter (fun s => s.tokenHash != hashToken t) = rows :=
      List.filter_eq_self.mpr (fun s hs => by simpa using h s hs)
    simp [revokeToken, deleteSession, hself]
  · have hidem : (rows.filter (fun s => s.tokenHash != hashToken t)).filter
        (fun s => s.tokenHash != hashToken t)
        = rows.filter (fun s => s.tokenHash != hashToken t) :=
      List.filter_eq_self.mpr (fun s hs => (List.mem_filter.mp hs).2)
    by_cases hlen : (rows.filter (fun s => s.tokenHash != hashToken t)).length = rows.length
    · simp [revokeToken, deleteSession, hlen]
    · simp [revokeToken, deleteSession, hlen, hidem]

/-- Witness for C3 (amended): the concrete empty ledger yields the error,
and double revocation on the live ledger ends as single revocation does. -/
theorem revokeToken_amended_witness :
    (revokeToken true [] tok0 = (some "session not found", []) ∧
      (revokeToken true (revokeToken true [] tok0).2 tok0).2 =
        (revokeToken true [] tok0).2) ∧
    ((revokeToken true (revokeToken true rows0 tok0).2 tok0).2 =
        (revokeToken true rows0 tok0).2 ∧
      (revokeToken true (revokeToken true rows0 tok0).2 tok0).1 ≠ none) :=
  ⟨⟨(revokeToken_amended [] tok0).1 (by simp),
    ((revokeToken_amended [] tok0).2).1⟩,
   (revokeToken_amended rows0 tok0).2⟩

/-- C6: when the old credential validates as live, `RefreshToken` issues
and returns a new credential even when the revocation step fails
(`delOk = false`); a refresh fails only when the old credential does not
validate or when persisting the new one fails. -/
theorem refreshToken_ignores_revocation_failure (a : AuthService)
    (getOk delOk : Bool) (rows : List Session) (now : Time) (jti : String)
    (old : Token) (ip ua : String) :
    ((validateToken a getOk rows now old).1.val.isSome →
      (refreshToken a getOk delOk true rows now jti old ip ua).1.val.isSome ∧
      (refreshToken a getOk delOk true rows now jti old ip ua).1.err = none) ∧
    (∀ createOk,
      (refreshToken a getOk delOk createOk rows now jti old ip ua).1.val = none →
      (validateToken a getOk rows now old).1.val = none ∨ createOk = false) := by
  cases hv : (validateToken a getOk rows now old).1.val with
  | none =>
      constructor
      · intro h
        simp [refreshToken, hv] at h
      · intro createOk _
        exact Or.inl rfl
  | some c =>
      constructor
      · intro _
        simp [refreshToken, hv, generateToken, createSession]
      · intro createOk h
        cases createOk with
        | false => exact Or.inr rfl
        | true =>
            exfalso
            simp [refreshToken, hv, generateToken, createSession] at h

/-- Witness for C6: the concretely issued `tok0` is live in `rows0`, and
the refresh succeeds even with the revocation backend down; conversely a
concrete refresh that returns no credential has a failed persistence. -/
theorem refreshToken_ignores_revocation_failure_witness :
    ((refreshToken svc0 true false true rows0 now0 "jti-2" tok0 "ip" "ua").1.val.isSome ∧
      (refreshToken svc0 true false true rows0 now0 "jti-2" tok0 "ip" "ua").1.err = none) ∧
    ((validateToken svc0 true rows0 now0 tok0).1.val = none ∨ false = false) :=
  ⟨(refreshToken_ignores_revocation_failure svc0 true false rows0 now0 "jti-2" tok0
      "ip" "ua").1 (by decide),
   (refreshToken_ignores_revocation_failure svc0 true false rows0 now0 "jti-2" tok0
      "ip" "ua").2 false (by decide)⟩

/-- A deleted key is absent from the string keyspace. -/
theorem kvGet_kvDel (kv : List (String × Payload × Duration)) (k : String) :
    kvGet (kvDel kv k) k = none := by
  have h : (kvDel kv k).find? (fun e => e.1 == k) = none := by
    rw [List.find?_eq_none]
    intro e he
    have h2 : (e.1 != k) = true := (List.mem_filter.mp he).2
    simpa using h2
  simp [kvGet, h]

/-- An overwritten key holds the new value. -/
theorem kvGet_kvSet_self (kv : List (String × Payload × Duration)) (k : String)
    (v : Payload × Duration) : kvGet (kvSet kv k v) k = some v := by
  simp [kvGet, kvSet]

/-- Cache state fixture with one corrupt WebFinger payload. -/
def stC : RedisState :=
  { kv := [(webfingerKey "acct:bob@example.com", .corrupt "garbage", 5 * minute)],
    lists := [], hits := 0, misses := 0 }

/-- Counterexample for C2: on a corrupted payload, `GetWebFingerRecord`
returns an unmarshal error, not the `(nil, nil)` outcome of a miss. -/
theorem getWebFingerRecord_corrupt_errors_cex :
    (getWebFingerRecord true stC "acct:bob@example.com").1.err =
      some "failed to unmarshal cached WebFinger record" ∧
    (getWebFingerRecord true stC "acct:bob@example.com").1 ≠
      (⟨none, none⟩ : GoPair JRD) := by
  decide

/-- C2 (amended): a cached payload that fails to deserialize yields no
record and a decode error (not a silent miss), the corrupted entry is
deleted in the same call, and a subsequent `Get` on the key is a plain
`(nil, nil)` miss. -/
theorem getWebFingerRecord_corrupt_self_heal (st : RedisState) (subject : String)
    (p : Payload) (d : Duration)
    (hlook : kvGet st.kv (webfingerKey subject) = some (p, d))
    (hbad : unmarshalJRD p = none) :
    (getWebFingerRecord true st subject).1.val = none ∧
    (getWebFingerRecord true st subject).1.err ≠ none ∧
    (getWebFingerRecord true st subject).2.kv = kvDel st.kv (webfingerKey subject) ∧
    (getWebFingerRecord true (getWebFingerRecord true st subject).2 subject).1
      = (⟨none, none⟩ : GoPair JRD) := by
  have h1 : getWebFingerRecord true st subject
      = (⟨none, some "failed to unmarshal cached WebFinger record"⟩,
         { st with kv := kvDel st.kv (webfingerKey subject) }) := by
    simp [getWebFingerRecord, hlook, hbad]
  refine ⟨by rw [h1], by rw [h1]; simp, by rw [h1], ?_⟩
  rw [h1]
  simp [getWebFingerRecord, kvGet_kvDel]

/-- Witness for C2 (amended): the concrete corrupt entry errors, is
deleted, and misses afterwards. -/
theorem getWebFingerRecord_corrupt_self_heal_witness :
    (getWebFingerRecord true stC "acct:bob@example.com").1.val = none ∧
    (getWebFingerRecord true stC "acct:bob@example.com").1.err ≠ none ∧
    (getWebFingerRecord true stC "acct:bob@example.com").2.kv =
      kvDel stC.kv (webfingerKey "acct:bob@example.com") ∧
    (getWebFingerRecord true (getWebFingerRecord true stC "acct:bob@example.com").2
      "acct:bob@example.com").1 = (⟨none, none⟩ : GoPair JRD) :=
  getWebFingerRecord_corrupt_self_heal stC "acct:bob@example.com"
    (.corrupt "garbage") (5 * minute) (by decide) rfl

/-- C10: with a store that signals a missing subject by `(nil, nil)` (the
in-memory `MockStore`), `HandleWebFinger` dereferences the `nil` record on
the cache-miss path and panics (modelled by `none`) instead of answering. -/
theorem handleWebFinger_nil_record_panics :
    handleWebFinger true (mockLookupBySubject []) none "acct:missing@example.com"
      = none ∧
    mockLookupBySubject [] "acct:missing@example.com" = (⟨none, none⟩ : GoPair JRD) := by
  decide

/-- Counterexample for C4: a present but shape-invalid `resource` (no `@`,
so `IsValidResource` rejects it) is not answered with `400`; the handler
forwards it to the store and answers `404`. -/
theorem handleWebFinger_shape_not_rejected_cex :
    isValidResource (trimAcct "acct:nodomain") = false ∧
    handleWebFinger true (postgresLookupBySubject true []) none "acct:nodomain"
      = some ({ status := 404, contentType := none, xCache := none, body := none,
                errText := some "not found" }, none) := by
  decide

/-- C4 (amended): `HandleWebFinger` answers `400` only when the `resource`
parameter is absent (empty); any non-empty value — shape-valid or not — is
forwarded to the authoritative lookup, which yields `404` on a lookup
error (including a missing record) and `200` with the record on success. -/
theorem handleWebFinger_status_amended (data : String → GoPair JRD)
    (cache : Option RedisState) (resource : String) :
    (handleWebFinger true data cache "" =
      some ({ status := 400, contentType := none, xCache := none, body := none,
              errText := some "missing resource param" }, cache)) ∧
    (resource ≠ "" → (data resource).err ≠ none →
      handleWebFinger true data none resource
        = some ({ status := 404, contentType := none, xCache := none,
                  body := none, errText := some "not found" }, none)) ∧
    (resource ≠ "" → ∀ u, data resource = ⟨some u, none⟩ →
      handleWebFinger true data none resource
        = some ({ status := 200, contentType := some "application/jrd+json",
                  xCache := some "MISS", body := some (jrdOf u), errText := none },
                none)) := by
  refine ⟨by simp [handleWebFinger], ?_, ?_⟩
  · intro hres herr
    cases he : (data resource).err with
    | none => exact absurd he herr
    | some e => simp [handleWebFinger, handleWebFingerDB, hres, he]
  · intro hres u hu
    simp [handleWebFinger, handleWebFingerDB, hres, hu]

/-- The seeded example resource record. -/
def jrdEx : JRD :=
  { subject := "acct:example@example.com",
    aliases := ["http://example.com/profile/example"],
    properties := [("http://example.com/prop/name", "Example User")],
    links := [{ rel := "http://webfinger.net/rel/profile-page", type := "text/html",
                href := "http://example.com/profile/example" }] }

/-- Witness for C4 (amended): concrete `400`, `404` and `200` outcomes. -/
theorem handleWebFinger_status_amended_witness :
    (handleWebFinger true (postgresLookupBySubject true [jrdEx]) none "" =
      some ({ status := 400, contentType := none, xCache := none, body := none,
              errText := some "missing resource param" }, none)) ∧
    (handleWebFinger true (postgresLookupBySubject true []) none
        "acct:ghost@example.com"
      = some ({ status := 404, contentType := none, xCache := none,
                body := none, errText := some "not found" }, none)) ∧
    (handleWebFinger true (postgresLookupBySubject true [jrdEx]) none
        "acct:example@example.com"
      = some ({ status := 200, contentType := some "application/jrd+json",
                xCache := some "MISS", body := some (jrdOf jrdEx), errText := none },
              none)) :=
  ⟨(handleWebFinger_status_amended (postgresLookupBySubject true [jrdEx]) none "x").1,
   (handleWebFinger_status_amended (postgresLookupBySubject true [])
      none "acct:ghost@example.com").2.1 (by decide) (by decide),
   (handleWebFinger_status_amended (postgresLookupBySubject true [jrdEx])
      none "acct:example@example.com").2.2 (by decide) jrdEx (by decide)⟩

/-- A `(nil, nil)` result of the cache `Get` leaves the cache state
unchanged. -/
theorem getWebFingerRecord_miss_state (st : RedisState) (resource : String)
    (h : (getWebFingerRecord true st resource).1 = ⟨none, none⟩) :
    (getWebFingerRecord true st resource).2 = st := by
  cases hk : kvGet st.kv (webfingerKey resource) with
  | none => simp [getWebFingerRecord, hk]
  | some pd =>
      obtain ⟨p, d⟩ := pd
      cases hj : unmarshalJRD p with
      | none => simp [getWebFingerRecord, hk, hj] at h
      | some j => simp [getWebFingerRecord, hk, hj] at h

/-- C7: `HandleWebFinger` is cache-aside.  A cache hit is answered
immediately with the `HIT` indicator, with any authoritative store (the
store is not consulted); on a cache miss the store result is served with
the `MISS` indicator and, on store success, first written to the cache
under a 5-minute freshness window; on a store miss a `404` is returned and
the cache keyspace is unchanged; a cache backend error likewise falls
through to the store. -/
theorem handleWebFinger_cache_aside (st : RedisState) (resource : String)
    (hres : resource ≠ "") :
    (∀ redisOk j data,
      (getWebFingerRecord redisOk st resource).1 = ⟨some j, none⟩ →
      handleWebFinger redisOk data (some st) resource
        = some ({ status := 200, contentType := some "application/jrd+json",
                  xCache := some "HIT", body := some j, errText := none },
                some (getWebFingerRecord redisOk st resource).2)) ∧
    (∀ u data,
      (getWebFingerRecord true st resource).1 = ⟨none, none⟩ →
      data resource = ⟨some u, none⟩ →
      handleWebFinger true data (some st) resource
        = some ({ status := 200, contentType := some "application/jrd+json",
                  xCache := some "MISS", body := some (jrdOf u), errText := none },
                some ((setWebFingerRecord true (recordMiss st) resource (jrdOf u)
                        (5 * minute)).2)) ∧
      kvGet ((setWebFingerRecord true (recordMiss st) resource (jrdOf u)
                (5 * minute)).2).kv (webfingerKey resource)
        = some (.wellFormed (jrdOf u), 5 * minute)) ∧
    (∀ data,
      (getWebFingerRecord true st resource).1 = ⟨none, none⟩ →
      (data resource).err ≠ none →
      handleWebFinger true data (some st) resource
        = some ({ status := 404, contentType := none, xCache := none,
                  body := none, errText := some "not found" },
                some (recordMiss st)) ∧
      (recordMiss st).kv = st.kv) ∧
    (∀ u data,
      data resource = ⟨some u, none⟩ →
      handleWebFinger false data (some st) resource
        = some ({ status := 200, contentType := some "application/jrd+json",
                  xCache := some "MISS", body := some (jrdOf u), errText := none },
                some (recordMiss st))) := by
  refine ⟨?_, ?_, ?_, ?_⟩
  · intro redisOk j data hhit
    have he : (getWebFingerRecord redisOk st resource).1.err = none := by rw [hhit]
    have hv : (getWebFingerRecord redisOk st resource).1.val = some j := by rw [hhit]
    simp [handleWebFinger, hres, he, hv]
  · intro u data hmiss hu
    have hst : (getWebFingerRecord true st resource).2 = st :=
      getWebFingerRecord_miss_state st resource hmiss
    have he : (getWebFingerRecord true st resource).1.err = none := by rw [hmiss]
    have hv : (getWebFingerRecord true st resource).1.val = none := by rw [hmiss]
    constructor
    · simp [handleWebFinger, handleWebFingerDB, hres, he, hv, hst, hu]
    · simp [setWebFingerRecord, recordMiss, kvGet_kvSet_self]
  · intro data hmiss herr
    have hst : (getWebFingerRecord true st resource).2 = st :=
      getWebFingerRecord_miss_state st resource hmiss
    have he : (getWebFingerRecord true st resource).1.err = none := by rw [hmiss]
    have hv : (getWebFingerRecord true st resource).1.val = none := by rw [hmiss]
    cases he2 : (data resource).err with
    | none => exact absurd he2 herr
    | some e =>
        constructor
        · simp [handleWebFinger, handleWebFingerDB, hres, he, hv, hst, he2]
        · rfl
  · intro u data hu
    simp [handleWebFinger, handleWebFingerDB, getWebFingerRecord,
      setWebFingerRecord, hres, hu]

/-- Cache state fixture holding the example record. -/
def stHit : RedisState :=
  { kv := [(webfingerKey "acct:example@example.com", .wellFormed jrdEx, 5 * minute)],
    lists := [], hits := 0, misses := 0 }

/-- Empty cache state fixture. -/
def stEmpty : RedisState := { kv := [], lists := [], hits := 0, misses := 0 }

/-- Witness for C7: concrete hit (with an empty store, showing the store is
not consulted), concrete populated miss, concrete authoritative `404`, and
concrete cache-backend-down fallback. -/
theorem handleWebFinger_cache_aside_witness :
    (handleWebFinger true (postgresLookupBySubject true [])
        (some stHit) "acct:example@example.com"
      = some ({ status := 200, contentType := some "application/jrd+json",
                xCache := some "HIT", body := some jrdEx, errText := none },
              some (getWebFingerRecord true stHit "acct:example@example.com").2)) ∧
    (handleWebFinger true (postgresLookupBySubject true [jrdEx])
        (some stEmpty) "acct:example@example.com"
      = some ({ status := 200, contentType := some "application/jrd+json",
                xCache := some "MISS", body := some (jrdOf jrdEx), errText := none },
              some ((setWebFingerRecord true (recordMiss stEmpty)
                      "acct:example@example.com" (jrdOf jrdEx) (5 * minute)).2)) ∧
      kvGet ((setWebFingerRecord true (recordMiss stEmpty)
               "acct:example@example.com" (jrdOf jrdEx) (5 * minute)).2).kv
          (webfingerKey "acct:example@example.com")
        = some (.wellFormed (jrdOf jrdEx), 5 * minute)) ∧
    (handleWebFinger true (postgresLookupBySubject true [])
        (some stEmpty) "acct:ghost@example.com"
      = some ({ status := 404, contentType := none, xCache := none,
                body := none, errText := some "not found" },
              some (recordMiss stEmpty)) ∧
      (recordMiss stEmpty).kv = stEmpty.kv) ∧
    (handleWebFinger false (postgresLookupBySubject true [jrdEx])
        (some stEmpty) "acct:example@example.com"
      = some ({ status := 200, contentType := some "application/jrd+json",
                xCache := some "MISS", body := some (jrdOf jrdEx), errText := none },
              some (recordMiss stEmpty))) :=
  ⟨(handleWebFinger_cache_aside stHit "acct:example@example.com" (by decide)).1
      true jrdEx (postgresLookupBySubject true []) (by decide),
   (handleWebFinger_cache_aside stEmpty "acct:example@example.com" (by decide)).2.1
      jrdEx (postgresLookupBySubject true [jrdEx]) (by decide) (by decide),
   (handleWebFinger_cache_aside stEmpty "acct:ghost@example.com" (by decide)).2.2.1
      (postgresLookupBySubject true []) (by decide) (by decide),
   (handleWebFinger_cache_aside stEmpty "acct:example@example.com" (by decide)).2.2.2
      jrdEx (postgresLookupBySubject true [jrdEx]) (by decide)⟩

/-- A list keyspace in which every key differs from `k` has no entry at
`k`. -/
theorem listsGet_eq_none_of_all (ls : List (String × List String × Time))
    (k : String) (h : ∀ e ∈ ls, e.1 ≠ k) : listsGet ls k = none := by
  have hfind : ls.find? (fun e => e.1 == k) = none := by
    rw [List.find?_eq_none]
    intro e he
    simpa using h e he
  simp [listsGet, hfind]

/-- C9: `SetSearchResults` stores the explicit `__EMPTY__` sentinel for an
empty result set — present in the keyspace, unlike a never-queried key,
which `GetSearchResults` reports as a miss — and `Cleanup` deletes sentinel
entries whose remaining TTL has dropped below 23 hours while keeping
non-empty entries written at the same time with the same expiry, so
sentinel entries have a shorter effective freshness window. -/
theorem setSearchResults_sentinel_window (st : RedisState) (now tc : Time)
    (q1 q2 : String) (results : List String) (E : Duration)
    (hne : results ≠ []) (hsent : results.reverse ≠ ["__EMPTY__"])
    (hkeys : searchKey q1 ≠ searchKey q2)
    (h1 : 0 < now + E - tc) (h2 : now + E - tc < 23 * hour) :
    (listsGet (setSearchResults true (setSearchResults true st now q1 [] E).2
        now q2 results E).2.lists (searchKey q1) = some (["__EMPTY__"], now + E)) ∧
    (∀ q, listsGet st.lists (searchKey q) = none →
      (getSearchResults true st tc q).1 = (⟨none, none⟩ : GoPair (List String))) ∧
    (listsGet (cleanup (setSearchResults true (setSearchResults true st now q1 [] E).2
        now q2 results E).2 tc).lists (searchKey q1) = none) ∧
    (listsGet (cleanup (setSearchResults true (setSearchResults true st now q1 [] E).2
        now q2 results E).2 tc).lists (searchKey q2)
      = some (results.reverse, now + E)) ∧
    ((getSearchResults true (cleanup (setSearchResults true
        (setSearchResults true st now q1 [] E).2 now q2 results E).2 tc) tc q1).1
      = (⟨none, none⟩ : GoPair (List String))) ∧
    ((getSearchResults true (cleanup (setSearchResults true
        (setSearchResults true st now q1 [] E).2 now q2 results E).2 tc) tc q2).1.val
      = some results.reverse) := by
  have hneb : results.isEmpty = false := by
    cases results with
    | nil => exact absurd rfl hne
    | cons a l => rfl
  have hb12 : (searchKey q1 != searchKey q2) = true := by simpa using hkeys
  have hb21 : (searchKey q2 == searchKey q1) = false := by
    simpa using Ne.symm hkeys
  have hl2 : (setSearchResults true (setSearchResults true st now q1 [] E).2
      now q2 results E).2.lists
      = (searchKey q2, results.reverse, now + E) ::
        (searchKey q1, ["__EMPTY__"], now + E) ::
        (st.lists.filter (fun e => e.1 != searchKey q1)).filter
          (fun e => e.1 != searchKey q2) := by
    simp [setSearchResults, hneb, List.filter_cons, hb12]
  have hget1 : listsGet (setSearchResults true (setSearchResults true st now q1 [] E).2
      now q2 results E).2.lists (searchKey q1) = some (["__EMPTY__"], now + E) := by
    rw [hl2]
    simp [listsGet, List.find?_cons, hb21]
  have hsentb : (results.reverse == ["__EMPTY__"]) = false := by
    simpa using hsent
  have htc : tc < now + E := Int.sub_pos.mp h1
  have hd1 : decide (0 < now + E - tc) = true := decide_eq_true h1
  have hd2 : decide (now + E - tc < 23 * hour) = true := decide_eq_true h2
  have hclean : (cleanup (setSearchResults true (setSearchResults true st now q1 [] E).2
      now q2 results E).2 tc).lists
      = (searchKey q2, results.reverse, now + E) ::
        ((st.lists.filter (fun e => e.1 != searchKey q1)).filter
          (fun e => e.1 != searchKey q2)).filter (fun e =>
            !(e.2.1 == ["__EMPTY__"] && decide (0 < e.2.2 - tc) &&
              decide (e.2.2 - tc < 23 * hour))) := by
    rw [cleanup, hl2]
    simp [List.filter_cons, hsentb, hd1, hd2, htc, h2]
  have hclean1 : listsGet (cleanup (setSearchResults true
      (setSearchResults true st now q1 [] E).2 now q2 results E).2 tc).lists
      (searchKey q1) = none := by
    rw [hclean]
    have hrest : ∀ e ∈ ((st.lists.filter (fun e => e.1 != searchKey q1)).filter
        (fun e => e.1 != searchKey q2)).filter (fun e =>
          !(e.2.1 == ["__EMPTY__"] && decide (0 < e.2.2 - tc) &&
            decide (e.2.2 - tc < 23 * hour))), e.1 ≠ searchKey q1 := by
      intro e he
      have he1 := (List.mem_filter.mp he).1
      have he2 := (List.mem_filter.mp he1).1
      have := (List.mem_filter.mp he2).2
      simpa using this
    have hfind : ((searchKey q2, results.reverse, now + E) ::
        ((st.lists.filter (fun e => e.1 != searchKey q1)).filter
          (fun e => e.1 != searchKey q2)).filter (fun e =>
            !(e.2.1 == ["__EMPTY__"] && decide (0 < e.2.2 - tc) &&
              decide (e.2.2 - tc < 23 * hour)))).find?
          (fun e => e.1 == searchKey q1) = none := by
      rw [List.find?_cons_of_neg _ (by simpa using Ne.symm hkeys)]
      rw [List.find?_eq_none]
      intro e he
      simpa using hrest e he
    simp only [listsGet]
    rw [hfind]
    rfl
  have hclean2 : listsGet (cleanup (setSearchResults true
      (setSearchResults true st now q1 [] E).2 now q2 results E).2 tc).lists
      (searchKey q2) = some (results.reverse, now + E) := by
    rw [hclean]
    simp [listsGet, List.find?_cons]
  refine ⟨hget1, ?_, hclean1, hclean2, ?_, ?_⟩
  · intro q hq
    simp [getSearchResults, hq]
  · simp [getSearchResults, hclean1]
  · have hrevne : (results.reverse).isEmpty = false := by
      cases hr : results.reverse with
      | nil => exact absurd (List.reverse_eq_nil_iff.mp hr) hne
      | cons a l => rfl
    simp [getSearchResults, hclean2, htc, hrevne]

/-- Witness for C9: concrete sentinel entry at key `alpha`, concrete miss
for the never-queried key `gamma`, and after a cleanup 22 hours before
expiry the sentinel is gone while the positive entry at `beta` still
hits. -/
theorem setSearchResults_sentinel_window_witness :
    (listsGet (setSearchResults true (setSearchResults true stEmpty 0 "alpha" []
        (24 * hour)).2 0 "beta" ["acct:example@example.com"] (24 * hour)).2.lists
      (searchKey "alpha") = some (["__EMPTY__"], 0 + 24 * hour)) ∧
    ((getSearchResults true stEmpty (2 * hour) "gamma").1
      = (⟨none, none⟩ : GoPair (List String))) ∧
    (listsGet (cleanup (setSearchResults true (setSearchResults true stEmpty 0 "alpha" []
        (24 * hour)).2 0 "beta" ["acct:example@example.com"] (24 * hour)).2
      (2 * hour)).lists (searchKey "alpha") = none) ∧
    (listsGet (cleanup (setSearchResults true (setSearchResults true stEmpty 0 "alpha" []
        (24 * hour)).2 0 "beta" ["acct:example@example.com"] (24 * hour)).2
      (2 * hour)).lists (searchKey "beta")
      = some (["acct:example@example.com"].reverse, 0 + 24 * hour)) ∧
    ((getSearchResults true (cleanup (setSearchResults true (setSearchResults true
        stEmpty 0 "alpha" [] (24 * hour)).2 0 "beta" ["acct:example@example.com"]
        (24 * hour)).2 (2 * hour)) (2 * hour) "alpha").1
      = (⟨none, none⟩ : GoPair (List String))) ∧
    ((getSearchResults true (cleanup (setSearchResults true (setSearchResults true
        stEmpty 0 "alpha" [] (24 * hour)).2 0 "beta" ["acct:example@example.com"]
        (24 * hour)).2 (2 * hour)) (2 * hour) "beta").1.val
      = some ["acct:example@example.com"].reverse) :=
  have h := setSearchResults_sentinel_window stEmpty 0 (2 * hour) "alpha" "beta"
    ["acct:example@example.com"] (24 * hour) (by decide) (by decide) (by decide)
    (by decide) (by decide)
  ⟨h.1, h.2.1 "gamma" (by decide), h.2.2.1, h.2.2.2.1, h.2.2.2.2.1, h.2.2.2.2.2⟩

/-- A deactivated user fixture with a known password. -/
def userBobInactive : User :=
  { id := 2, username := "bob", email := "bob@example.com",
    passwordHash := bcryptHash "rightpw", isAdmin := false, isActive := false }

/-- Counterexample for C8: for a known but deactivated username, a wrong
password is answered `403` "Account is disabled" (the active check runs
before password verification), while an unknown username is answered `401`
"Invalid credentials" — the two responses are distinguishable. -/
theorem handleLogin_enumeration_cex :
    (handleLogin true true svc0 [userBobInactive] [] now0 "jti-3" "ip" "ua"
        ⟨"bob", "wrongpw"⟩).1
      ≠ (handleLogin true true svc0 [userBobInactive] [] now0 "jti-3" "ip" "ua"
        ⟨"ghost", "wrongpw"⟩).1 ∧
    (handleLogin true true svc0 [userBobInactive] [] now0 "jti-3" "ip" "ua"
      ⟨"bob", "wrongpw"⟩).1.status = 403 ∧
    (handleLogin true true svc0 [userBobInactive] [] now0 "jti-3" "ip" "ua"
      ⟨"ghost", "wrongpw"⟩).1.status = 401 := by
  decide

/-- C8 (amended): for an unknown login name and for a known, active user
with a wrong password, `HandleLogin` produces the identical response:
status `401` with the identical `"Invalid credentials"` error body. -/
theorem handleLogin_indistinguishable_amended (createOk : Bool) (a : AuthService)
    (users : List User) (sessions : List Session) (now : Time) (jti ip ua : String)
    (uname gname pw : String) (u : User)
    (huname : uname ≠ "") (hg : gname ≠ "") (hpw : pw ≠ "")
    (hfind : (if uname.data.contains '@' then getUserByEmail true users uname
              else getUserByUsername true users uname) = ⟨some u, none⟩)
    (hactive : u.isActive = true)
    (hwrong : verifyPassword pw u.passwordHash = false)
    (hghost : (if gname.data.contains '@' then getUserByEmail true users gname
               else getUserByUsername true users gname).val = none) :
    (handleLogin true createOk a users sessions now jti ip ua ⟨uname, pw⟩).1
      = (handleLogin true createOk a users sessions now jti ip ua ⟨gname, pw⟩).1 ∧
    (handleLogin true createOk a users sessions now jti ip ua ⟨uname, pw⟩).1
      = ⟨401, some ⟨"Invalid credentials", ""⟩, none, none⟩ := by
  have hfind2 : (if '@' ∈ uname.data then getUserByEmail true users uname
      else getUserByUsername true users uname) = ⟨some u, none⟩ := by
    simpa using hfind
  have hghost2 : (if '@' ∈ gname.data then getUserByEmail true users gname
      else getUserByUsername true users gname).val = none := by
    simpa using hghost
  have hknown : (handleLogin true createOk a users sessions now jti ip ua
      ⟨uname, pw⟩).1 = ⟨401, some ⟨"Invalid credentials", ""⟩, none, none⟩ := by
    simp [handleLogin, huname, hpw, hfind2, hactive, hwrong]
  have hunknown : (handleLogin true createOk a users sessions now jti ip ua
      ⟨gname, pw⟩).1 = ⟨401, some ⟨"Invalid credentials", ""⟩, none, none⟩ := by
    simp [handleLogin, hg, hpw, hghost2]
  exact ⟨hknown.trans hunknown.symm, hknown⟩

/-- Witness for C8 (amended): `alice` (active) with a wrong password and
the unknown `ghost` get the identical concrete `401` response. -/
theorem handleLogin_indistinguishable_amended_witness :
    (handleLogin true true svc0 [user0] [] now0 "jti-4" "ip" "ua"
        ⟨"alice", "wrongpw"⟩).1
      = (handleLogin true true svc0 [user0] [] now0 "jti-4" "ip" "ua"
        ⟨"ghost", "wrongpw"⟩).1 ∧
    (handleLogin true true svc0 [user0] [] now0 "jti-4" "ip" "ua"
      ⟨"alice", "wrongpw"⟩).1
      = ⟨401, some ⟨"Invalid credentials", ""⟩, none, none⟩ :=
  handleLogin_indistinguishable_amended true svc0 [user0] [] now0 "jti-4" "ip" "ua"
    "alice" "ghost" "wrongpw" user0 (by decide) (by decide) (by decide)
    (by decide) rfl (by decide) (by decide)

end Asdf
